import Mathlib

/-!
# ONI Resource Calculator — verification of `compute_requirements`

Shallow embedding of the core of `oni_calc.py` together with the static
reference data of `resources.py`.

Python dictionaries are modelled as association lists (`List (String × α)`)
that preserve insertion order, exactly as CPython dicts do.  `dictLookup`
models `d.get(k)` / `k in d`, and `dictSet` models `d[k] = v` (updating an
existing key in place keeps its position; a new key is appended at the end).

All numeric inputs the claims quantify over are non-negative integers
(the spec restricts duplicants, days and building counts to `>= 0`), so
they are embedded as `Nat`; Python's `//` and `%` on non-negative ints
coincide with `Nat` division and modulus.
-/

namespace ONI

/-- First-match lookup in an association list: the model of Python
`d.get(k)` / `d[k]` / `k in d` (dict keys are unique, so first match is
the match). -/
def dictLookup {α : Type} (m : List (String × α)) (k : String) : Option α :=
  match m with
  | [] => none
  | (a, b) :: rest => if a = k then some b else dictLookup rest k

/-- `d.get(k, dflt)` of Python. -/
def dictGet {α : Type} (m : List (String × α)) (k : String) (dflt : α) : α :=
  match dictLookup m k with
  | some v => v
  | none => dflt

/-- `d[k] = v` of Python: replace the value of an existing key in place,
otherwise append the new pair at the end. -/
def dictSet {α : Type} (m : List (String × α)) (k : String) (v : α) :
    List (String × α) :=
  match m with
  | [] => [(k, v)]
  | (a, b) :: rest => if a = k then (a, v) :: rest else (a, b) :: dictSet rest k v

/-- A value stored in a `BUILDINGS` entry: the `"name"` key holds a string,
every material key holds a number (`resources.py` stores the display name in
the same mapping as the per-unit material quantities). -/
inductive BVal : Type
  | str (s : String)
  | nat (n : Nat)
deriving DecidableEq, Repr

/-- One entry of the `FOODS` catalog of `resources.py`:
`{"name": ..., "calories": ..., "unit": ..., "desc": ...}`.
Every shipped food has exactly these four keys, so the dict is embedded as a
structure. -/
structure FoodInfo : Type where
  name : String
  calories : Nat
  unit : String
  desc : String
deriving DecidableEq, Repr

/-- `FOODS` of `resources.py`. -/
def FOODS : List (String × FoodInfo) :=
  [ ("mushroom",
      { name := "Mushroom", calories := 120, unit := "kg", desc := "Raw food" }),
    ("grilled_mushroom",
      { name := "Grilled Mushroom", calories := 400, unit := "plate", desc := "Cooked meal" }),
    ("basic_meal",
      { name := "Basic Meal", calories := 1200, unit := "plate", desc := "Full meal" }) ]

/-- `BUILDINGS` of `resources.py`: building key → info dict, where the info
dict mixes the `"name"` entry with material quantities, in source order. -/
def BUILDINGS : List (String × List (String × BVal)) :=
  [ ("simple_bed",
      [("name", .str "Simple Cot"), ("iron_ore", .nat 20)]),
    ("oxygen_generator",
      [("name", .str "O2 Generator"), ("iron_ore", .nat 50), ("algae", .nat 10)]),
    ("water_pump",
      [("name", .str "Water Pump"), ("iron_ore", .nat 40)]) ]

/-- The inner loop of `compute_requirements` over one known building's info
dict: `for res_key, qty in info.items(): if res_key == "name": continue;
materials[res_key] = materials.get(res_key, 0) + qty * count`.

A `.str` value under a non-`"name"` key would make Python's
`materials.get(res_key, 0) + qty * count` raise `TypeError`; that branch is
dead code for the shipped catalog (`buildings_non_name_numeric` below proves
every non-`"name"` value in `BUILDINGS` is numeric), and is embedded as a
skip. -/
def addBuilding (mats : List (String × Nat)) (info : List (String × BVal))
    (count : Nat) : List (String × Nat) :=
  info.foldl
    (fun m rq =>
      if rq.1 = "name" then m
      else
        match rq.2 with
        | .str _ => m
        | .nat q => dictSet m rq.1 (dictGet m rq.1 0 + q * count))
    mats

/-- One iteration of the outer loop of `compute_requirements`:
`info = BUILDINGS.get(bkey); if not info: continue; ...`.
`not info` is true for `None` (unknown key) and for an empty dict. -/
def stepBuilding (cat : List (String × List (String × BVal)))
    (mats : List (String × Nat)) (bc : String × Nat) : List (String × Nat) :=
  match dictLookup cat bc.1 with
  | none => mats
  | some info => if info.isEmpty then mats else addBuilding mats info bc.2

/-- The building-material aggregation of `compute_requirements`:
`materials = {}` followed by the loop over `buildings.items()`. -/
def computeMaterials (cat : List (String × List (String × BVal)))
    (buildings : List (String × Nat)) : List (String × Nat) :=
  buildings.foldl (stepBuilding cat) []

/-- The `"food"` sub-dict of the result. -/
structure FoodOut : Type where
  key : String
  units : Nat
  unit : String
deriving DecidableEq, Repr

/-- The result dict of `compute_requirements`. -/
structure Requirements : Type where
  duplicants : Nat
  days : Nat
  food : FoodOut
  materials : List (String × Nat)
deriving DecidableEq, Repr

/-- `compute_requirements` of `oni_calc.py`, parametrised by the two
catalogs it reads (the source reads the module-level `FOODS` and
`BUILDINGS`; `compute_requirements` below instantiates them).
`raise ValueError("Unknown food: " + str(food_key))` is embedded as
`Except.error` carrying the message. -/
def compute_requirementsWith (foods : List (String × FoodInfo))
    (cat : List (String × List (String × BVal)))
    (duplicants days : Nat) (food_key : String)
    (buildings : List (String × Nat)) : Except String Requirements :=
  match dictLookup foods food_key with
  | none => .error ("Unknown food: " ++ food_key)
  | some food_info =>
    let calories_per_unit := food_info.calories
    let calories_per_duplicant_per_day := 1200
    let total_calories_needed := duplicants * days * calories_per_duplicant_per_day
    let units0 := total_calories_needed / calories_per_unit
    let units_needed :=
      if total_calories_needed % calories_per_unit ≠ 0 then units0 + 1 else units0
    .ok
      { duplicants := duplicants
        days := days
        food := { key := food_key, units := units_needed, unit := food_info.unit }
        materials := computeMaterials cat buildings }

/-- `compute_requirements` applied to the shipped catalogs, as in the
source. -/
def compute_requirements (duplicants days : Nat) (food_key : String)
    (buildings : List (String × Nat)) : Except String Requirements :=
  compute_requirementsWith FOODS BUILDINGS duplicants days food_key buildings

/-- The state visible to `compute_requirements`: the two module-level
catalogs and the caller's `buildings` dict — the heap objects the function
could in principle mutate. -/
structure Env : Type where
  foods : List (String × FoodInfo)
  buildingsCat : List (String × List (String × BVal))
  arg_buildings : List (String × Nat)
deriving DecidableEq, Repr

/-- State-passing embedding of `compute_requirements`.  Every statement of
the Python body only reads the catalogs and the `buildings` argument
(`food_key not in FOODS`, `FOODS[food_key]`, `BUILDINGS.get(bkey)`,
`buildings.items()`); the `materials` dict is a freshly allocated local.
The statement-by-statement translation therefore threads the state through
unchanged. -/
def compute_requirementsEnv (env : Env) (duplicants days : Nat)
    (food_key : String) : Except String Requirements × Env :=
  (compute_requirementsWith env.foods env.buildingsCat duplicants days food_key
      env.arg_buildings,
    env)

/-! ## Association-list lemmas -/

/-- `dictLookup` after `dictSet`: the set key reads back the new value,
every other key is untouched. -/
theorem dictLookup_dictSet {α : Type} (m : List (String × α)) (k k' : String)
    (v : α) :
    dictLookup (dictSet m k v) k' = if k' = k then some v else dictLookup m k' := by
  induction m with
  | nil =>
    by_cases h : k' = k
    · subst h; simp [dictLookup, dictSet]
    · simp [dictLookup, dictSet, h, Ne.symm h]
  | cons hd tl ih =>
    obtain ⟨a, b⟩ := hd
    by_cases hak : a = k
    · subst hak
      by_cases h : k' = a
      · subst h; simp [dictLookup, dictSet]
      · simp [dictLookup, dictSet, h, Ne.symm h]
    · by_cases h : a = k'
      · subst h
        simp [dictLookup, dictSet, hak, Ne.symm hak]
      · simp [dictLookup, dictSet, hak, h, ih]

/-- `dictGet` after `dictSet`. -/
theorem dictGet_dictSet {α : Type} (m : List (String × α)) (k k' : String)
    (v dflt : α) :
    dictGet (dictSet m k v) k' dflt
      = if k' = k then v else dictGet m k' dflt := by
  unfold dictGet
  rw [dictLookup_dictSet]
  by_cases h : k' = k <;> simp [h]

/-- A successful `dictLookup` exhibits a member of the list. -/
theorem dictLookup_mem {α : Type} (m : List (String × α)) (k : String) (v : α)
    (h : dictLookup m k = some v) : (k, v) ∈ m := by
  induction m with
  | nil => simp [dictLookup] at h
  | cons hd tl ih =>
    obtain ⟨a, b⟩ := hd
    by_cases hak : a = k
    · subst hak
      simp [dictLookup] at h
      simp [h]
    · simp [dictLookup, hak] at h
      exact List.mem_cons_of_mem _ (ih h)

/-! ## Per-material contribution sums -/

/-- The quantity of material `k` that one unit of a building with info dict
`info` requires (the `"name"` entry and — dead for the shipped catalog —
non-numeric values contribute nothing). -/
def infoContrib (info : List (String × BVal)) (k : String) : Nat :=
  match info with
  | [] => 0
  | rq :: rest =>
    (if rq.1 = "name" then 0
     else
       match rq.2 with
       | .str _ => 0
       | .nat q => if rq.1 = k then q else 0)
    + infoContrib rest k

/-- The quantity of material `k` contributed by one `(building, count)`
request entry. -/
def bcContrib (cat : List (String × List (String × BVal)))
    (bc : String × Nat) (k : String) : Nat :=
  match dictLookup cat bc.1 with
  | none => 0
  | some info => if info.isEmpty then 0 else infoContrib info k * bc.2

/-- The inner aggregation loop adds exactly `infoContrib info k * count`
to each material `k`. -/
theorem dictGet_addBuilding (info : List (String × BVal))
    (mats : List (String × Nat)) (c : Nat) (k : String) :
    dictGet (addBuilding mats info c) k 0
      = dictGet mats k 0 + infoContrib info k * c := by
  induction info generalizing mats with
  | nil => simp [addBuilding, infoContrib]
  | cons rq rest ih =>
    obtain ⟨a, val⟩ := rq
    by_cases ha : a = "name"
    · have hstep : addBuilding mats ((a, val) :: rest) c = addBuilding mats rest c := by
        simp [addBuilding, List.foldl, ha]
      rw [hstep, ih]
      simp [infoContrib, ha]
    · cases val with
      | str s =>
        have hstep :
            addBuilding mats ((a, BVal.str s) :: rest) c = addBuilding mats rest c := by
          simp [addBuilding, List.foldl, ha]
        rw [hstep, ih]
        simp [infoContrib, ha]
      | nat q =>
        have hstep :
            addBuilding mats ((a, BVal.nat q) :: rest) c
              = addBuilding (dictSet mats a (dictGet mats a 0 + q * c)) rest c := by
          simp [addBuilding, List.foldl, ha]
        rw [hstep, ih, dictGet_dictSet]
        simp only [infoContrib, if_neg ha]
        by_cases hk : k = a
        · subst hk
          simp only [if_pos rfl, eq_self_iff_true, if_true]
          ring
        · rw [if_neg hk, if_neg (Ne.symm hk)]
          ring

/-- One outer-loop step adds exactly `bcContrib cat bc k` to material `k`. -/
theorem dictGet_stepBuilding (cat : List (String × List (String × BVal)))
    (mats : List (String × Nat)) (bc : String × Nat) (k : String) :
    dictGet (stepBuilding cat mats bc) k 0
      = dictGet mats k 0 + bcContrib cat bc k := by
  unfold stepBuilding bcContrib
  cases h : dictLookup cat bc.1 with
  | none => simp
  | some info =>
    by_cases he : info.isEmpty
    · simp [he]
    · simp [he, dictGet_addBuilding]

/-- The whole aggregation: the total for material `k` is the sum of the
per-entry contributions. -/
theorem dictGet_foldl_stepBuilding (cat : List (String × List (String × BVal)))
    (bs : List (String × Nat)) (mats : List (String × Nat)) (k : String) :
    dictGet (bs.foldl (stepBuilding cat) mats) k 0
      = dictGet mats k 0 + (bs.map (fun bc => bcContrib cat bc k)).sum := by
  induction bs generalizing mats with
  | nil => simp
  | cons bc rest ih =>
    simp only [List.foldl, List.map, List.sum_cons]
    rw [ih, dictGet_stepBuilding]
    ring

/-- Specialisation to `computeMaterials` (empty initial `materials`). -/
theorem dictGet_computeMaterials (cat : List (String × List (String × BVal)))
    (bs : List (String × Nat)) (k : String) :
    dictGet (computeMaterials cat bs) k 0
      = (bs.map (fun bc => bcContrib cat bc k)).sum := by
  unfold computeMaterials
  rw [dictGet_foldl_stepBuilding]
  simp [dictGet, dictLookup]

/-! ## The `"name"` key never reaches the totals -/

/-- The inner loop never writes the `"name"` key. -/
theorem dictLookup_addBuilding_name (info : List (String × BVal))
    (mats : List (String × Nat)) (c : Nat) :
    dictLookup (addBuilding mats info c) "name" = dictLookup mats "name" := by
  induction info generalizing mats with
  | nil => simp [addBuilding]
  | cons rq rest ih =>
    obtain ⟨a, val⟩ := rq
    by_cases ha : a = "name"
    · have hstep : addBuilding mats ((a, val) :: rest) c = addBuilding mats rest c := by
        simp [addBuilding, List.foldl, ha]
      rw [hstep, ih]
    · cases val with
      | str s =>
        have hstep :
            addBuilding mats ((a, BVal.str s) :: rest) c = addBuilding mats rest c := by
          simp [addBuilding, List.foldl, ha]
        rw [hstep, ih]
      | nat q =>
        have hstep :
            addBuilding mats ((a, BVal.nat q) :: rest) c
              = addBuilding (dictSet mats a (dictGet mats a 0 + q * c)) rest c := by
          simp [addBuilding, List.foldl, ha]
        rw [hstep, ih, dictLookup_dictSet, if_neg (Ne.symm ha)]

/-- The whole aggregation never produces a `"name"` key. -/
theorem dictLookup_computeMaterials_name
    (cat : List (String × List (String × BVal))) (bs : List (String × Nat)) :
    dictLookup (computeMaterials cat bs) "name" = none := by
  suffices hgen : ∀ mats : List (String × Nat),
      dictLookup (bs.foldl (stepBuilding cat) mats) "name" = dictLookup mats "name" by
    simpa [dictLookup] using hgen []
  induction bs with
  | nil => intro mats; rfl
  | cons bc rest ih =>
    intro mats
    simp only [List.foldl]
    rw [ih]
    unfold stepBuilding
    cases dictLookup cat bc.1 with
    | none => rfl
    | some info =>
      by_cases he : info.isEmpty
      · simp [he]
      · simp [he, dictLookup_addBuilding_name]

/-! ## Ceiling division facts (the `//` + remainder bump of the source) -/

/-- The rounded-up unit count covers the calorie target. -/
theorem unitsNeeded_ge (t c : Nat) (hc : 0 < c) :
    t ≤ (if t % c ≠ 0 then t / c + 1 else t / c) * c := by
  by_cases h : t % c = 0
  · simp only [h, ne_eq, not_true_eq_false, if_false]
    exact Nat.le_of_eq (Nat.div_mul_cancel (Nat.dvd_of_mod_eq_zero h)).symm
  · simp only [ne_eq, h, not_false_eq_true, if_true]
    have h1 : t / c * c + t % c = t := Nat.div_add_mod' t c
    have h2 : t % c < c := Nat.mod_lt t hc
    have h3 : (t / c + 1) * c = t / c * c + c := by ring
    rw [h3]
    exact Nat.le_of_lt (by omega)

/-- One unit fewer no longer covers the calorie target. -/
theorem unitsNeeded_min (t c : Nat) (hc : 0 < c)
    (hu : 0 < (if t % c ≠ 0 then t / c + 1 else t / c)) :
    ((if t % c ≠ 0 then t / c + 1 else t / c) - 1) * c < t := by
  by_cases h : t % c = 0
  · simp only [h, ne_eq, not_true_eq_false, if_false] at hu ⊢
    have h1 : t / c * c = t := Nat.div_mul_cancel (Nat.dvd_of_mod_eq_zero h)
    have ht : 0 < t := h1 ▸ Nat.mul_pos hu hc
    have h3 : (t / c - 1) * c = t / c * c - c := by
      rw [Nat.sub_mul, Nat.one_mul]
    rw [h3, h1]
    exact Nat.sub_lt ht hc
  · simp only [ne_eq, h, not_false_eq_true, if_true, Nat.add_sub_cancel]
    have h1 : t / c * c + t % c = t := Nat.div_add_mod' t c
    have h2 : 0 < t % c := Nat.pos_of_ne_zero h
    omega

/-- A zero calorie target needs zero units. -/
theorem unitsNeeded_zero (c : Nat) :
    (if 0 % c ≠ 0 then 0 / c + 1 else 0 / c) = 0 := by
  simp

/-! ## Facts about the shipped catalogs -/

/-- Every shipped food has positive calories, one of 120, 400, 1200. -/
theorem foods_calories_pos (fk : String) (fi : FoodInfo)
    (h : dictLookup FOODS fk = some fi) :
    0 < fi.calories ∧ (fi.calories = 120 ∨ fi.calories = 400 ∨ fi.calories = 1200) := by
  have hm : (fk, fi) ∈ FOODS := dictLookup_mem _ _ _ h
  have hall : ∀ p ∈ FOODS,
      0 < p.2.calories ∧
        (p.2.calories = 120 ∨ p.2.calories = 400 ∨ p.2.calories = 1200) := by
    decide
  exact hall _ hm

/-- `true` of numeric `BUILDINGS` values. -/
def BVal.isNum : BVal → Bool
  | .str _ => false
  | .nat _ => true

/-- In the shipped `BUILDINGS` catalog, every value under a non-`"name"`
key is numeric, so the dead `.str` branch of `addBuilding` (a Python
`TypeError` on `int + str`) is never taken. -/
theorem buildings_non_name_numeric :
    ∀ p ∈ BUILDINGS, ∀ rq ∈ p.2, rq.1 ≠ "name" → rq.2.isNum = true := by
  decide

/-- Unfolding lemma: an absent food key yields the `Unknown food` error. -/
theorem compute_requirementsWith_unknown (foods : List (String × FoodInfo))
    (cat : List (String × List (String × BVal))) (d days : Nat) (fk : String)
    (bs : List (String × Nat)) (h : dictLookup foods fk = none) :
    compute_requirementsWith foods cat d days fk bs
      = .error ("Unknown food: " ++ fk) := by
  unfold compute_requirementsWith
  rw [h]

/-- Unfolding lemma: a present food key yields the result record. -/
theorem compute_requirementsWith_known (foods : List (String × FoodInfo))
    (cat : List (String × List (String × BVal))) (d days : Nat) (fk : String)
    (bs : List (String × Nat)) (fi : FoodInfo)
    (h : dictLookup foods fk = some fi) :
    compute_requirementsWith foods cat d days fk bs
      = .ok { duplicants := d, days := days,
              food := { key := fk,
                        units := if d * days * 1200 % fi.calories ≠ 0
                                 then d * days * 1200 / fi.calories + 1
                                 else d * days * 1200 / fi.calories,
                        unit := fi.unit },
              materials := computeMaterials cat bs } := by
  unfold compute_requirementsWith
  rw [h]

/-! ## Claim theorems -/

/-- C1: for every duplicants and days and every food key present in the
food catalog, `compute_requirements` succeeds and the computed
`units_needed` is the least unit count covering `duplicants * days * 1200`
calories: it covers the target, one unit fewer does not (when positive),
and a zero target yields zero units. -/
theorem units_needed_minimal (duplicants days : Nat) (food_key : String)
    (bs : List (String × Nat)) (fi : FoodInfo)
    (h : dictLookup FOODS food_key = some fi) :
    ∃ r, compute_requirements duplicants days food_key bs = .ok r ∧
      duplicants * days * 1200 ≤ r.food.units * fi.calories ∧
      (0 < r.food.units →
        (r.food.units - 1) * fi.calories < duplicants * days * 1200) ∧
      (duplicants * days * 1200 = 0 → r.food.units = 0) := by
  have hc : 0 < fi.calories := (foods_calories_pos food_key fi h).1
  unfold compute_requirements compute_requirementsWith
  rw [h]
  refine ⟨_, rfl, ?_, ?_, ?_⟩
  · exact unitsNeeded_ge (duplicants * days * 1200) fi.calories hc
  · exact unitsNeeded_min (duplicants * days * 1200) fi.calories hc
  · intro ht
    show (if duplicants * days * 1200 % fi.calories ≠ 0
          then duplicants * days * 1200 / fi.calories + 1
          else duplicants * days * 1200 / fi.calories) = 0
    rw [ht]
    exact unitsNeeded_zero fi.calories

/-- C1 witness: the minimality facts at the concrete input
`duplicants = 3, days = 7, food = "basic_meal"`. -/
theorem units_needed_minimal_witness :
    ∃ r, compute_requirements 3 7 "basic_meal" [] = .ok r ∧
      3 * 7 * 1200 ≤ r.food.units * (1200 : Nat) ∧
      (0 < r.food.units → (r.food.units - 1) * (1200 : Nat) < 3 * 7 * 1200) ∧
      (3 * 7 * 1200 = 0 → r.food.units = 0) :=
  units_needed_minimal 3 7 "basic_meal" []
    { name := "Basic Meal", calories := 1200, unit := "plate", desc := "Full meal" }
    (by decide)

/-- C2: `compute_requirements` fails exactly when the food key is not in
the food catalog, in which case the error is the `Unknown food` error and
no result is produced; for every food key present in the catalog it
returns a result, whatever the other inputs are. -/
theorem unknown_food_only_error (d days : Nat) (fk : String)
    (bs : List (String × Nat)) :
    (dictLookup FOODS fk = none →
      compute_requirements d days fk bs = .error ("Unknown food: " ++ fk)) ∧
    (∀ fi, dictLookup FOODS fk = some fi →
      ∃ r, compute_requirements d days fk bs = .ok r) ∧
    (∀ e, compute_requirements d days fk bs = .error e →
      dictLookup FOODS fk = none ∧ e = "Unknown food: " ++ fk) := by
  unfold compute_requirements
  cases hl : dictLookup FOODS fk with
  | none =>
    rw [compute_requirementsWith_unknown FOODS BUILDINGS d days fk bs hl]
    refine ⟨fun _ => rfl, fun fi hfi => Option.noConfusion hfi, fun e he => ⟨rfl, ?_⟩⟩
    injection he with h2
    exact h2.symm
  | some fi =>
    rw [compute_requirementsWith_known FOODS BUILDINGS d days fk bs fi hl]
    exact ⟨fun hn => Option.noConfusion hn, fun fi2 _ => ⟨_, rfl⟩,
      fun e he => Except.noConfusion he⟩

/-- C2 witness: the unknown food `"does_not_exist"` makes the function
fail with the `Unknown food` error, and the valid key `"mushroom"`
produces a result. -/
theorem unknown_food_only_error_witness :
    compute_requirements 2 3 "does_not_exist" [("simple_bed", 1)]
        = .error ("Unknown food: does_not_exist") ∧
    ∃ r, compute_requirements 2 3 "mushroom" [("simple_bed", 1)] = .ok r :=
  ⟨(unknown_food_only_error 2 3 "does_not_exist" [("simple_bed", 1)]).1 (by decide),
   (unknown_food_only_error 2 3 "mushroom" [("simple_bed", 1)]).2.1
     { name := "Mushroom", calories := 120, unit := "kg", desc := "Raw food" }
     (by decide)⟩

/-- C3: a building identifier absent from the building catalog is silently
skipped: the whole result of `compute_requirements` — error behaviour,
food units, and material totals alike — is the same as if the entry were
not in `buildingCounts` at all. -/
theorem unknown_building_skipped (d days : Nat) (fk : String)
    (bs1 bs2 : List (String × Nat)) (bkey : String) (count : Nat)
    (h : dictLookup BUILDINGS bkey = none) :
    compute_requirements d days fk (bs1 ++ (bkey, count) :: bs2)
      = compute_requirements d days fk (bs1 ++ bs2) := by
  have hm : computeMaterials BUILDINGS (bs1 ++ (bkey, count) :: bs2)
      = computeMaterials BUILDINGS (bs1 ++ bs2) := by
    unfold computeMaterials
    rw [List.foldl_append, List.foldl_append]
    simp [List.foldl, stepBuilding, h]
  unfold compute_requirements compute_requirementsWith
  cases hl : dictLookup FOODS fk with
  | none => rfl
  | some fi => simp [hm]

/-- C3 witness: the unknown building `"mess_hall"` changes nothing at a
concrete input. -/
theorem unknown_building_skipped_witness :
    compute_requirements 1 2 "basic_meal" [("simple_bed", 2), ("mess_hall", 4)]
      = compute_requirements 1 2 "basic_meal" [("simple_bed", 2)] :=
  unknown_building_skipped 1 2 "basic_meal" [("simple_bed", 2)] [] "mess_hall" 4
    (by decide)

/-- C4: material totals are strictly additive in building counts: for any
building identifier `A` and counts `m`, `n`, the per-material sum of the
totals for `{A: m}` and `{A: n}` equals the totals for `{A: m + n}`. -/
theorem materials_additive (A : String) (m n : Nat) (k : String) :
    dictGet (computeMaterials BUILDINGS [(A, m)]) k 0
        + dictGet (computeMaterials BUILDINGS [(A, n)]) k 0
      = dictGet (computeMaterials BUILDINGS [(A, m + n)]) k 0 := by
  simp only [dictGet_computeMaterials, List.map_cons, List.map_nil,
    List.sum_cons, List.sum_nil]
  unfold bcContrib
  cases dictLookup BUILDINGS A with
  | none => simp
  | some info =>
    by_cases he : info.isEmpty
    · simp [he]
    · simp [he, Nat.mul_add]

/-- C5 counterexample: a building mapped to count 0 is *not* the same as
removing it — `{"simple_bed": 0}` leaves a zero-valued `iron_ore` entry in
the totals, so the totals do contain an entry for a material whose total
is zero, and differ from the totals of the empty request. -/
theorem zero_count_building_counterexample :
    compute_requirements 1 1 "mushroom" [("simple_bed", 0)]
        ≠ compute_requirements 1 1 "mushroom" [] ∧
    computeMaterials BUILDINGS [("simple_bed", 0)] = [("iron_ore", 0)] ∧
    computeMaterials BUILDINGS [] = [] ∧
    dictLookup (computeMaterials BUILDINGS [("simple_bed", 0)]) "iron_ore"
        = some 0 := by
  refine ⟨?_, rfl, rfl, rfl⟩
  intro h
  unfold compute_requirements at h
  rw [compute_requirementsWith_known FOODS BUILDINGS 1 1 "mushroom"
        [("simple_bed", 0)]
        { name := "Mushroom", calories := 120, unit := "kg", desc := "Raw food" }
        (by decide),
      compute_requirementsWith_known FOODS BUILDINGS 1 1 "mushroom" []
        { name := "Mushroom", calories := 120, unit := "kg", desc := "Raw food" }
        (by decide)] at h
  injection h with h2
  exact absurd h2 (by decide)

/-- C5 (amended): a building mapped to count 0 contributes zero to every
material total — the totals of a request containing a zero-count entry
agree, material by material, with the totals of the request with that
entry removed (only a zero-valued key may additionally appear). -/
theorem zero_count_contributes_zero (bs1 bs2 : List (String × Nat))
    (bkey : String) (k : String) :
    dictGet (computeMaterials BUILDINGS (bs1 ++ (bkey, 0) :: bs2)) k 0
      = dictGet (computeMaterials BUILDINGS (bs1 ++ bs2)) k 0 := by
  simp only [dictGet_computeMaterials, List.map_append, List.map_cons,
    List.sum_append, List.sum_cons]
  have h0 : bcContrib BUILDINGS (bkey, 0) k = 0 := by
    unfold bcContrib
    cases dictLookup BUILDINGS bkey with
    | none => rfl
    | some info =>
      by_cases he : info.isEmpty <;> simp [he]
  rw [h0]
  omega

/-- C6: with a valid food key and `duplicants = 0` or `days = 0`, the unit
count is 0 while the material totals are exactly those of any other
duplicant/day values — the food and building computations are
independent. -/
theorem zero_duplicants_or_days (d days : Nat) (fk : String)
    (bs : List (String × Nat)) (fi : FoodInfo)
    (h : dictLookup FOODS fk = some fi) (h0 : d = 0 ∨ days = 0) :
    ∃ r, compute_requirements d days fk bs = .ok r ∧ r.food.units = 0 ∧
      ∀ d2 days2 : Nat, ∃ r2, compute_requirements d2 days2 fk bs = .ok r2 ∧
        r2.materials = r.materials := by
  have ht : d * days * 1200 = 0 := by
    rcases h0 with h0 | h0 <;> simp [h0]
  unfold compute_requirements compute_requirementsWith
  rw [h]
  refine ⟨_, rfl, ?_, ?_⟩
  · show (if d * days * 1200 % fi.calories ≠ 0
          then d * days * 1200 / fi.calories + 1
          else d * days * 1200 / fi.calories) = 0
    rw [ht]
    exact unitsNeeded_zero fi.calories
  · intro d2 days2
    exact ⟨_, rfl, rfl⟩

/-- C6 witness: zero duplicants with five days at a concrete input. -/
theorem zero_duplicants_or_days_witness :
    ∃ r, compute_requirements 0 5 "mushroom" [("water_pump", 1)] = .ok r ∧
      r.food.units = 0 ∧
      ∀ d2 days2 : Nat, ∃ r2,
        compute_requirements d2 days2 "mushroom" [("water_pump", 1)] = .ok r2 ∧
        r2.materials = r.materials :=
  zero_duplicants_or_days 0 5 "mushroom" [("water_pump", 1)]
    { name := "Mushroom", calories := 120, unit := "kg", desc := "Raw food" }
    (by decide) (Or.inl rfl)

/-- C7: the concrete scenario of the spec: 3 duplicants, 7 days,
`basic_meal`, 3 simple beds and 1 oxygen generator give 21 food units and
totals of 110 kg iron ore and 10 kg algae. -/
theorem concrete_scenario :
    compute_requirements 3 7 "basic_meal"
        [("simple_bed", 3), ("oxygen_generator", 1)]
      = .ok { duplicants := 3, days := 7,
              food := { key := "basic_meal", units := 21, unit := "plate" },
              materials := [("iron_ore", 110), ("algae", 10)] } := by
  rfl

/-- C8: `compute_requirements` is pure: in the state-passing embedding the
catalogs and the caller's `buildings` mapping come back unchanged, the
result is the deterministic function of the inputs, a preceding call (with
any arguments) cannot influence a later one, and on the shipped catalogs
the result is `compute_requirements` itself. -/
theorem compute_requirements_pure (env : Env) (d days : Nat) (fk : String) :
    (compute_requirementsEnv env d days fk).2 = env ∧
    (compute_requirementsEnv env d days fk).1
      = compute_requirementsWith env.foods env.buildingsCat d days fk
          env.arg_buildings ∧
    (∀ d0 days0 : Nat, ∀ fk0 : String,
      (compute_requirementsEnv
          ((compute_requirementsEnv env d0 days0 fk0).2) d days fk).1
        = (compute_requirementsEnv env d days fk).1) ∧
    (env.foods = FOODS → env.buildingsCat = BUILDINGS →
      (compute_requirementsEnv env d days fk).1
        = compute_requirements d days fk env.arg_buildings) := by
  refine ⟨rfl, rfl, fun _ _ _ => rfl, fun h1 h2 => ?_⟩
  simp [compute_requirementsEnv, compute_requirements, h1, h2]

/-- C8 witness: frame and agreement at a concrete state. -/
theorem compute_requirements_pure_witness :
    (compute_requirementsEnv
        ⟨FOODS, BUILDINGS, [("simple_bed", 1)]⟩ 1 1 "mushroom").2
      = ⟨FOODS, BUILDINGS, [("simple_bed", 1)]⟩ ∧
    (compute_requirementsEnv
        ⟨FOODS, BUILDINGS, [("simple_bed", 1)]⟩ 1 1 "mushroom").1
      = compute_requirements 1 1 "mushroom" [("simple_bed", 1)] :=
  ⟨(compute_requirements_pure
      ⟨FOODS, BUILDINGS, [("simple_bed", 1)]⟩ 1 1 "mushroom").1,
   (compute_requirements_pure
      ⟨FOODS, BUILDINGS, [("simple_bed", 1)]⟩ 1 1 "mushroom").2.2.2 rfl rfl⟩

/-- C9: every food of the shipped catalog has positive calories per unit
(120, 400 or 1200), so the division and remainder by `calories_per_unit`
inside `compute_requirements` never divide by zero once the unknown-food
check has passed. -/
theorem calories_per_unit_positive (fk : String) (fi : FoodInfo)
    (h : dictLookup FOODS fk = some fi) :
    0 < fi.calories ∧
      (fi.calories = 120 ∨ fi.calories = 400 ∨ fi.calories = 1200) :=
  foods_calories_pos fk fi h

/-- C9 witness: the `"mushroom"` entry. -/
theorem calories_per_unit_positive_witness :
    0 < (120 : Nat) ∧ ((120 : Nat) = 120 ∨ (120 : Nat) = 400 ∨ (120 : Nat) = 1200) :=
  calories_per_unit_positive "mushroom"
    { name := "Mushroom", calories := 120, unit := "kg", desc := "Raw food" }
    (by decide)

/-- C10: the material totals returned by `compute_requirements` never
contain the key `"name"`: the display name stored in each building's info
dict is excluded from aggregation by the explicit `res_key == "name"`
branch. -/
theorem materials_never_contain_name (d days : Nat) (fk : String)
    (bs : List (String × Nat)) (r : Requirements)
    (h : compute_requirements d days fk bs = .ok r) :
    dictLookup r.materials "name" = none := by
  unfold compute_requirements compute_requirementsWith at h
  cases hl : dictLookup FOODS fk with
  | none => rw [hl] at h; exact absurd h (by simp)
  | some fi =>
    rw [hl] at h
    have hmat : r.materials = computeMaterials BUILDINGS bs := by
      have := congrArg (fun x : Except String Requirements =>
        match x with
        | .ok r2 => r2.materials
        | .error _ => []) h
      simpa using this.symm
    rw [hmat]
    exact dictLookup_computeMaterials_name BUILDINGS bs

/-- C10 witness: no `"name"` key at a concrete input. -/
theorem materials_never_contain_name_witness :
    dictLookup
      ({ duplicants := 1, days := 1,
         food := { key := "mushroom", units := 10, unit := "kg" },
         materials := [("iron_ore", 20)] } : Requirements).materials "name"
      = none :=
  materials_never_contain_name 1 1 "mushroom" [("simple_bed", 1)] _ (by rfl)

end ONI
